import Mathlib

/-
Verification development for the pygeoapi feature-provider layer
(src/pygeoapi/provider/elasticsearch_.py and src/pygeoapi/provider/sql.py).

Shallow embedding conventions:
  * The backing stores (Elasticsearch, SQL database) are external
    collaborators.  A query's compiled predicate is executed by the store;
    we model the store's answer as the parameter `M`, the list of records
    matching the compiled predicate in the order of the compiled sort.
    Direct offset/limit access (`es.search(from_=offset, size=limit)`,
    `.offset(offset).limit(limit)`) and the forward-only scroll cursor
    (`helpers.scan`) are modelled over `M` per the stores' documented
    contracts.
  * Opaque payloads (property values, geometry blobs, datetimes) are
    modelled as `String`.
  * Python exceptions raised by the providers are modelled with `Except`;
    `ProviderError` mirrors pygeoapi's provider error taxonomy.
  * Python truthiness on lists (`if properties:`) is modelled as `≠ []`,
    and Python's `and` / `or` on lists by `pyAnd` / `pyOr`.
-/

/-- Error taxonomy of pygeoapi.provider.base used by both providers. -/
inductive ProviderError where
  | connectionError
  | queryError
  | itemNotFoundError
  | invalidDataError
deriving DecidableEq, Repr

/-- A `datetime_` argument after the provider's own parse:
`instant s` is a value without a `/`; `interval b e` is `b/e`
(so `interval ".." ".."` renders the fully open string `../..`). -/
inductive DT where
  | instant (s : String)
  | interval (b e : String)
deriving DecidableEq, Repr

/-- One entry of the `sortby` argument: `{'property': ..., 'order': ...}`. -/
structure SortSpec where
  property : String
  order : String
deriving DecidableEq, Repr

/-- A field descriptor as stored in a provider's `_fields` dict
(for example `{'type': 'string', 'format': 'date'}`). -/
structure FieldInfo where
  type : String
  format : Option String
deriving DecidableEq, Repr

/-- Lookup in an association list, modelling a Python dict read. -/
def assocLookup {α : Type} (l : List (String × α)) (k : String) : Option α :=
  (l.find? (fun kv => kv.1 == k)).map (fun kv => kv.2)

/-- Python `a and b` on lists: empty `a` short-circuits to `a`, else `b`. -/
def pyAnd (a b : List String) : List String :=
  if a = [] then a else b

/-- Python `a or b` on lists: non-empty `a` wins, else `b`. -/
def pyOr (a b : List String) : List String :=
  if a = [] then b else a

/-
Elasticsearch provider (src/pygeoapi/provider/elasticsearch_.py).
-/

/-- An Elasticsearch hit: `_id` plus the `_source` GeoJSON document
(its `type`, optional top-level `id`, optional `geometry`, and
`properties` mapping).  Values are opaque strings. -/
structure EsDoc where
  docId : String
  source_type : String
  source_id : Option String
  geometry : Option String
  props : List (String × String)
deriving DecidableEq, Repr

/-- The provider-instance state read and written by
`ElasticsearchProvider.query`/`esdoc2geojson`: the configured id field,
optional temporal field, the configured property allow-list
(`self.properties`), the mutable `self.select_properties` (set by `query`
at line 227), and the cached field catalog `self._fields`. -/
structure EsProviderState where
  id_field : String
  time_field : Option String
  properties : List String
  select_properties : List String
  fields : List (String × FieldInfo)
deriving DecidableEq, Repr

/-- `ElasticsearchProvider.mask_prop` (lines 572-581). -/
def mask_prop (property_name : String) : String :=
  "properties." ++ property_name

/-- `ElasticsearchProvider.get_properties` (lines 583-597).  Note the
source's control flow: the first `if` (both empty, returning the field
catalog) is always overwritten by the second `if`/`else` pair, which is
why the catalog branch does not appear in the result.  Python `and`/`or`
list semantics apply. -/
def get_properties (st : EsProviderState) : List String :=
  if st.properties ≠ [] ∧ st.select_properties ≠ [] then
    pyAnd st.properties st.select_properties
  else
    pyOr st.properties st.select_properties

/-- The canonical feature built by the result normalizers
(`esdoc2geojson`, `_sqlalchemy_to_feature`). -/
structure GeoFeature where
  id : String
  type : String
  geometry : Option String
  properties : List (String × String)
deriving DecidableEq, Repr

/-- `ElasticsearchProvider.esdoc2geojson` (lines 526-570): id resolution
order is configured id property inside `properties`, then the source's
top-level `id`, then the ES `_id`; when an allow-list or selection is
active the feature is thinned to those properties (missing ones logged
and skipped). -/
def esdoc2geojson (st : EsProviderState) (doc : EsDoc) : GeoFeature :=
  let id_ :=
    match assocLookup doc.props st.id_field with
    | some v => v
    | none =>
      match doc.source_id with
      | some v => v
      | none => doc.docId
  if st.properties ≠ [] ∨ st.select_properties ≠ [] then
    let all_properties := get_properties st
    { id := id_
      type := doc.source_type
      geometry := doc.geometry
      properties := all_properties.filterMap
        (fun p => (assocLookup doc.props p).map (fun v => (p, v))) }
  else
    { id := id_
      type := doc.source_type
      geometry := doc.geometry
      properties := doc.props }

/-- The direction part of an ES sort clause (lines 323-325):
`sort_order = 'asc'; if sort['order'] == '-': sort_order = 'desc'`. -/
def esSortOrder (s : SortSpec) : String :=
  if s.order = "-" then "desc" else "asc"

/-- One compiled ES sort clause `{sort_property: {'order': sort_order}}`. -/
structure EsSortClause where
  field : String
  order : String
deriving DecidableEq, Repr

/-- Compilation of one `sortby` entry (lines 311-332).  `self.fields[sp]`
raises `KeyError` for an uncataloged field, modelled as `none`; a
non-date string field sorts on its un-analyzed `.raw` sub-field. -/
def esSortClause (st : EsProviderState) (s : SortSpec) : Option EsSortClause :=
  (assocLookup st.fields s.property).map (fun fi =>
    let sort_property :=
      if fi.type = "string" ∧ fi.format ≠ some "date" then
        mask_prop s.property ++ ".raw"
      else
        mask_prop s.property
    ⟨sort_property, esSortOrder s⟩)

/-- One compiled ES property filter:
`{'match': {prop_name: {'query': value}}}`, optionally carrying
`'minimum_should_match': '100%'`. -/
structure EsPropFilter where
  field : String
  queryVal : String
  minimumShouldMatch : Bool
deriving DecidableEq, Repr

/-- Compilation of the `properties` argument (lines 292-306).  Each
`(name, value)` appends a `match` filter on the masked name to the
query's `bool.filter` conjunction.  The `minimum_should_match` line sits
after the loop, so it mutates only the last appended filter, and only
when the last value contains no `|`. -/
def esPropertyFilters (props : List (String × String)) : List EsPropFilter :=
  let pfs := props.map (fun p => EsPropFilter.mk (mask_prop p.1) p.2 false)
  match props.getLast? with
  | none => []
  | some lastProp =>
    if lastProp.2.toList.contains '|' then pfs
    else pfs.dropLast ++ [EsPropFilter.mk (mask_prop lastProp.1) lastProp.2 true]

/-- The `_source` dict of the compiled ES query (possibly absent). -/
structure EsSourceDict where
  includes : Option (List String)
  excludes : Option (List String)
deriving DecidableEq, Repr

/-- Construction of `query['_source']` (lines 334-368): a free-text `q`
assigns a dict excluding internal metadata fields; a present allow-list
or selection then reassigns `_source` wholesale to an includes dict of
the masked selected fields plus `id`, `type`, `geometry`; finally
`skip_geometry` sets the `excludes` key of the existing dict (or creates
the dict on `KeyError`). -/
def esSourceSpec (st : EsProviderState) (skip_geometry : Bool) (q : Option String) :
    Option EsSourceDict :=
  let s1 : Option EsSourceDict :=
    match q with
    | some _ => some ⟨none, some ["properties._metadata-payload",
                                  "properties._metadata-schema",
                                  "properties._metadata-format"]⟩
    | none => none
  let s2 : Option EsSourceDict :=
    if st.properties ≠ [] ∨ st.select_properties ≠ [] then
      some ⟨some ((get_properties st).map mask_prop ++ ["id", "type", "geometry"]), none⟩
    else s1
  if skip_geometry then
    match s2 with
    | some d => some ⟨d.includes, some ["geometry"]⟩
    | none => some ⟨none, some ["geometry"]⟩
  else s2

/-- State of the scroll-cursor loop (lines 382-389): the remaining
generator contents, the hits collected so far, and how many documents
have been pulled from the cursor. -/
structure ScanState where
  gen : List EsDoc
  hits : List EsDoc
  fetched : Nat
deriving DecidableEq, Repr

/-- One iteration of `for i in range(offset + limit)` (lines 382-389):
`next(gen)` on an exhausted generator raises `StopIteration` and breaks
(modelled as the remaining iterations doing nothing); otherwise the
pulled document is appended to the hits exactly when `i >= offset`. -/
def esScanStep (offset : Nat) (st : ScanState) (i : Nat) : ScanState :=
  match st.gen with
  | [] => st
  | d :: rest =>
    ⟨rest, if offset ≤ i then st.hits ++ [d] else st.hits, st.fetched + 1⟩

/-- The deep-pagination scroll walk (lines 378-389): a forward-only
cursor over the sorted matched set `M` (`helpers.scan` with
`preserve_order=True`), driven for `offset + limit` iterations. -/
def esScan (M : List EsDoc) (offset limit : Nat) : ScanState :=
  (List.range (offset + limit)).foldl (esScanStep offset) ⟨M, [], 0⟩

/-- Result of a direct `es.search(from_=offset, size=limit)` call:
the requested window and the exact total (`track_total_hits` is set). -/
structure EsSearchResult where
  hits : List EsDoc
  total : Nat
deriving DecidableEq, Repr

/-- Direct mode (lines 394-398): the store returns the window
`[offset, offset+limit)` of the sorted matched set plus the true total. -/
def esDirectSearch (M : List EsDoc) (offset limit : Nat) : EsSearchResult :=
  ⟨(M.drop offset).take limit, M.length⟩

/-- The feature collection built by `ElasticsearchProvider.query`:
`numberReturned` is `none` when the key is never set (the
`resulttype == 'hits'` early return at lines 412-413). -/
structure EsFeatureCollection where
  features : List GeoFeature
  numberMatched : Nat
  numberReturned : Option Nat
deriving DecidableEq, Repr

/-- Observable outcome of one `query` call: the returned collection,
the number of documents pulled from the store, and the effective
`limit` after the `resulttype == 'hits'` forcing (line 239). -/
structure EsQueryOutcome where
  collection : EsFeatureCollection
  fetched : Nat
  effLimit : Nat
deriving DecidableEq, Repr

/-- Arguments of `ElasticsearchProvider.query` that the modelled control
flow reads directly.  `bbox`, `properties`, `sortby`, `q`, `filterq`,
`skip_geometry` only shape the compiled store query (modelled by
`esPropertyFilters`, `esSortClause`, `esSourceSpec`) whose execution is
the parameter `M`. -/
structure EsQueryArgs where
  offset : Nat
  limit : Nat
  resulttype : String
  datetime_ : Option DT
  select_properties : List String
deriving DecidableEq, Repr

/-- The result-producing part of `ElasticsearchProvider.query`
(lines 229-422), evaluated against the already-updated provider state:
the `resulttype == 'hits'` limit forcing, the datetime-without-
`time_field` `ProviderQueryError` (lines 258-262), the
`offset + limit > 10000` switch between scroll and direct mode
(lines 376-398), the `matched`/`returned` accounting (lines 391-398),
the hits-mode early return without `numberReturned` (lines 410-413),
and serialization through `esdoc2geojson` (lines 417-420). -/
def esQueryResult (st : EsProviderState) (M : List EsDoc) (a : EsQueryArgs) :
    Except ProviderError EsQueryOutcome :=
  let limit := if a.resulttype = "hits" then 0 else a.limit
  if a.datetime_ ≠ none ∧ st.time_field = none then
    .error .queryError
  else if a.offset + limit > 10000 then
    let sc := esScan M a.offset limit
    let matched := sc.hits.length + a.offset
    if a.resulttype = "hits" then
      .ok ⟨⟨[], matched, none⟩, sc.fetched, limit⟩
    else
      .ok ⟨⟨sc.hits.map (esdoc2geojson st), matched, some sc.hits.length⟩,
           sc.fetched, limit⟩
  else
    let res := esDirectSearch M a.offset limit
    if a.resulttype = "hits" then
      .ok ⟨⟨[], res.total, none⟩, res.hits.length, limit⟩
    else
      .ok ⟨⟨res.hits.map (esdoc2geojson st), res.total, some res.hits.length⟩,
           res.hits.length, limit⟩

/-- `ElasticsearchProvider.query` (lines 204-422): line 227 first stores
the request's `select_properties` on the provider instance
(`self.select_properties = select_properties`); the rest of the call
computes from that updated state. -/
def esQuery (st0 : EsProviderState) (M : List EsDoc) (a : EsQueryArgs) :
    EsProviderState × Except ProviderError EsQueryOutcome :=
  let st := { st0 with select_properties := a.select_properties }
  (st, esQueryResult st M a)

/-- A keyed document/row store (the contract of `es.index` /
`Session.merge`: insert-or-replace at a key). -/
def storeUpsert {α : Type} (store : String → Option α) (identifier : String)
    (v : α) : String → Option α :=
  fun k => if k = identifier then some v else store k

/-- `ElasticsearchProvider.update` (lines 494-510): `es.index` the
prepared document at the identifier and return `True` unconditionally. -/
def esUpdate {α : Type} (store : String → Option α) (identifier : String)
    (json_data : α) : (String → Option α) × Bool :=
  (storeUpsert store identifier json_data, true)

/-
Generic SQL provider (src/pygeoapi/provider/sql.py).
-/

/-- Provider-instance configuration read by `GenericSQLProvider`:
id column, geometry column, optional temporal column, configured
property allow-list (`self.properties`), the keys of the cached field
catalog (`self.fields`, which excludes the geometry column), and the
columns of the reflected table model. -/
structure SqlProviderState where
  id_field : String
  geom : String
  time_field : Option String
  properties : List String
  fieldsKeys : List String
  tableColumns : List String
deriving DecidableEq, Repr

/-- A database row as mapped by SQLAlchemy: column name to value
(the `_sa_instance_state` bookkeeping attribute is not part of the
modelled row; `_sqlalchemy_to_feature` strips it first). -/
def Row : Type := List (String × String)

/-- A compiled SQLAlchemy filter expression (the shapes produced by
`_get_datetime_filter` and `_get_property_filters`). -/
inductive SqlFilter where
  | trueF
  | le (col : String) (v : String)
  | ge (col : String) (v : String)
  | between (col : String) (a b : String)
  | eq (col : String) (v : String)
  | andF (fs : List SqlFilter)

/-- `GenericSQLProvider._get_datetime_filter` (lines 544-565):
`None` and the fully open range `'../..'` pass everything through;
otherwise a missing `time_field` raises `ProviderQueryError`; then a
range with one `'..'` side compiles to a one-sided comparison, a closed
range to `between`, and an instant to column equality. -/
def sqlDatetimeFilter (st : SqlProviderState) (datetime_ : Option DT) :
    Except ProviderError SqlFilter :=
  match datetime_ with
  | none => .ok .trueF
  | some dt =>
    if dt = DT.interval ".." ".." then .ok .trueF
    else
      match st.time_field with
      | none => .error .queryError
      | some tf =>
        match dt with
        | .instant s => .ok (.eq tf s)
        | .interval b e =>
          if b = ".." then .ok (.le tf e)
          else if e = ".." then .ok (.ge tf b)
          else .ok (.between tf b e)

/-- The direction of one compiled ORDER BY clause (line 500):
`order_function = asc if sort_by_dict['order'] == '+' else desc`. -/
inductive SqlDir where
  | asc
  | desc
deriving DecidableEq, Repr

/-- Direction selection of `_get_order_by_clauses` (line 500). -/
def sqlOrderDir (s : SortSpec) : SqlDir :=
  if s.order = "+" then .asc else .desc

/-- `GenericSQLProvider._get_order_by_clauses` (lines 495-507): one
clause per `sortby` entry, else the mandatory ascending-by-id fallback. -/
def sqlOrderByClauses (st : SqlProviderState) (sort_by : List SortSpec) :
    List (String × SqlDir) :=
  let clauses := sort_by.map (fun s => (s.property, sqlOrderDir s))
  if clauses = [] then [(st.id_field, SqlDir.asc)] else clauses

/-- `GenericSQLProvider._get_property_filters` (lines 522-534): empty
input passes everything through; otherwise each `(column, value)` is a
column equality and the group is combined with `and_`. -/
def sqlPropertyFilters (props : List (String × String)) : SqlFilter :=
  if props = [] then .trueF
  else .andF (props.map (fun p => SqlFilter.eq p.1 p.2))

/-- `GenericSQLProvider._select_properties_clause` (lines 567-592):
start from the requested selection (or, when empty, every cataloged
field); intersect with the configured allow-list when one is set; add
the geometry column unless `skip_geometry`; keep only names that exist
as table columns (the `getattr` try/except).  Python sets are modelled
as `Finset String`. -/
def sqlColumnNames (st : SqlProviderState) (select_properties : List String)
    (skip_geometry : Bool) : Finset String :=
  let column_names :=
    if select_properties ≠ [] then select_properties.toFinset
    else st.fieldsKeys.toFinset
  let column_names :=
    if st.properties ≠ [] then column_names ∩ st.properties.toFinset
    else column_names
  let column_names :=
    if skip_geometry then column_names else insert st.geom column_names
  column_names.filter (fun c => c ∈ st.tableColumns)

/-- `GenericSQLProvider._sqlalchemy_to_feature` (lines 450-473): the
row minus SQLAlchemy bookkeeping becomes `properties`, the id column is
popped into `id`, and a present geometry column is popped and converted
into the `geometry` member (absent geometry gives `geometry: null`).
A present geometry value is modelled as truthy. -/
def sqlalchemyToFeature (st : SqlProviderState) (row : Row) : GeoFeature :=
  let props0 := List.filter (fun kv => !(kv.1 == st.id_field)) row
  let id_ := (assocLookup row st.id_field).getD ""
  match assocLookup props0 st.geom with
  | some g =>
    { id := id_
      type := "Feature"
      geometry := some g
      properties := List.filter (fun kv => !(kv.1 == st.geom)) props0 }
  | none =>
    { id := id_
      type := "Feature"
      geometry := none
      properties := props0 }

/-- The response dict built by `GenericSQLProvider.query`
(lines 228-233, 240-247). -/
structure SqlResponse where
  features : List GeoFeature
  numberMatched : Nat
  numberReturned : Nat
deriving DecidableEq, Repr

/-- Observable outcome of one SQL `query` call: the response and how
many rows were iterated out of the database. -/
structure SqlOutcome where
  response : SqlResponse
  rowsFetched : Nat
deriving DecidableEq, Repr

/-- Arguments of `GenericSQLProvider.query` read by the modelled control
flow; `bbox`, `properties`, `sortby`, `filterq`, `select_properties`,
`skip_geometry` shape the compiled query (modelled by
`sqlPropertyFilters`, `sqlOrderByClauses`, `sqlColumnNames`) whose
execution is the parameter `M`. -/
structure SqlQueryArgs where
  offset : Nat
  limit : Nat
  resulttype : String
  datetime_ : Option DT
deriving DecidableEq, Repr

/-- `GenericSQLProvider.query` (lines 164-248): the filters are
prepared first, so `_get_datetime_filter` may raise before any session
work; `matched` is `results.count()` over the filtered set `M`;
`resulttype == 'hits'` returns immediately with zero features (the
`or not results` clause never fires: a SQLAlchemy Query object is always
truthy); otherwise the ordered window `[offset, offset+limit)` is
iterated, incrementing `numberReturned` and serializing each row. -/
def sqlQuery (st : SqlProviderState) (M : List Row) (a : SqlQueryArgs) :
    Except ProviderError SqlOutcome :=
  match sqlDatetimeFilter st a.datetime_ with
  | .error e => .error e
  | .ok _ =>
    let matched := M.length
    if a.resulttype = "hits" then
      .ok ⟨⟨[], matched, 0⟩, 0⟩
    else
      let rows := (M.drop a.offset).take a.limit
      .ok ⟨⟨rows.map (sqlalchemyToFeature st), matched, rows.length⟩, rows.length⟩

/-- `GenericSQLProvider.update` (lines 396-415): `Session.merge` the
prepared instance (insert-or-replace by primary key), commit, and
return `True` unconditionally. -/
def sqlUpdate {α : Type} (table : String → Option α) (identifier : String)
    (json_data : α) : (String → Option α) × Bool :=
  (storeUpsert table identifier json_data, true)

/-
Characterization of the scroll-cursor loop.
-/

/-- After `N` iterations the scroll loop has pulled `min N |M|`
documents, holds the records of `M` with index in `[offset, N)`, and
the generator stands at position `N`. -/
theorem esScan_loop (offset : Nat) (M : List EsDoc) (N : Nat) :
    (List.range N).foldl (esScanStep offset) ⟨M, [], 0⟩ =
      ⟨M.drop N, (M.take N).drop offset, min N M.length⟩ := by
  induction N with
  | zero => simp
  | succ N ih =>
    rw [List.range_succ, List.foldl_append, ih]
    simp only [List.foldl_cons, List.foldl_nil]
    cases h : M.drop N with
    | nil =>
      have hlen : M.length ≤ N := by
        by_contra hc
        push_neg at hc
        have hne : M.drop N ≠ [] := by
          apply List.ne_nil_of_length_pos
          rw [List.length_drop]
          omega
        exact hne h
      simp only [esScanStep, h]
      have h1 : M.drop (N + 1) = [] := List.drop_of_length_le (by omega)
      have h2 : M.take (N + 1) = M.take N := by
        rw [List.take_of_length_le (by omega), List.take_of_length_le hlen]
      have h3 : min N M.length = min (N + 1) M.length := by omega
      rw [h1, h2, h3]
    | cons d rest =>
      have hlt : N < M.length := by
        by_contra hc
        push_neg at hc
        rw [List.drop_of_length_le hc] at h
        exact absurd h (by simp)
      have hget : M[N]? = some d := by
        have hh := List.head?_drop M N
        rw [h] at hh
        exact hh.symm
      have hrest : rest = M.drop (N + 1) := by
        have ht := List.tail_drop M N
        rw [h] at ht
        simpa using ht
      have htake : M.take (N + 1) = M.take N ++ [d] := by
        rw [List.take_succ, hget]
        rfl
      have hlentake : (M.take N).length = N := by
        rw [List.length_take]
        omega
      simp only [esScanStep, h, ScanState.mk.injEq]
      refine ⟨hrest, ?_, by omega⟩
      rw [htake, List.drop_append_eq_append_drop, hlentake]
      by_cases ho : offset ≤ N
      · rw [if_pos ho]
        have hz : offset - N = 0 := by omega
        rw [hz]
        rfl
      · rw [if_neg ho]
        have hz : List.drop (offset - N) [d] = [] := by
          apply List.drop_of_length_le
          simp
          omega
        rw [hz, List.append_nil]

/-- Closed form of the whole scroll walk of `query` (lines 378-389). -/
theorem esScan_spec (M : List EsDoc) (offset limit : Nat) :
    esScan M offset limit =
      ⟨M.drop (offset + limit), (M.take (offset + limit)).drop offset,
       min (offset + limit) M.length⟩ :=
  esScan_loop offset M (offset + limit)

/-- The scroll walk collects exactly the direct-mode window. -/
theorem esScan_hits_eq_window (M : List EsDoc) (offset limit : Nat) :
    (esScan M offset limit).hits = (M.drop offset).take limit := by
  rw [esScan_spec]
  simp only
  rw [List.drop_take]
  congr 1
  omega

/-- Size of the collected scroll window. -/
theorem esScan_hits_length (M : List EsDoc) (offset limit : Nat) :
    (esScan M offset limit).hits.length = min (offset + limit) M.length - offset := by
  rw [esScan_spec]
  simp [List.length_drop, List.length_take]

/-
Helper lemmas.
-/

/-- Shape of the compiled ES property filters on a non-empty input,
split as `init ++ [last]`: every filter is a `match` on the masked
field name, and only the last one can carry `minimum_should_match`. -/
theorem esPropertyFilters_concat (init : List (String × String))
    (lastProp : String × String) :
    esPropertyFilters (init ++ [lastProp]) =
      init.map (fun p => EsPropFilter.mk (mask_prop p.1) p.2 false) ++
      [EsPropFilter.mk (mask_prop lastProp.1) lastProp.2
        (!(lastProp.2.toList.contains '|'))] := by
  unfold esPropertyFilters
  rw [List.getLast?_concat]
  by_cases hc : '|' ∈ lastProp.2.data
  · simp [hc, List.map_append]
  · simp [hc, List.map_append, List.dropLast_concat]

/-
C1 through C10.
-/

/-- C1 counterexample: for the valid query contract
`resultType = 'hits'` the document-store strategy returns a collection
whose `numberReturned` member is never set (the early return at
elasticsearch_.py lines 412-413), so `numberReturned == len(features)`
fails to hold for this valid query. -/
theorem c1_counterexample :
    (esQuery ⟨"id", none, [], [], []⟩
        [⟨"d1", "Feature", none, none, []⟩]
        ⟨0, 10, "hits", none, []⟩).2
      = Except.ok ⟨⟨[], 1, none⟩, 0, 0⟩ ∧
    (none : Option Nat) ≠ some ([] : List GeoFeature).length := by
  exact ⟨rfl, by decide⟩

/-- C1 (amended): for every valid query contract the relational
strategy's response satisfies `numberReturned == len(features)`,
`numberReturned ≤ limit` and `numberReturned ≤ numberMatched`; the
document-store strategy satisfies all three for
`resultType = 'results'`, while for `resultType = 'hits'` it omits the
`numberReturned` member altogether (see the counterexample). -/
theorem c1_amended (stE : EsProviderState) (M : List EsDoc) (a : EsQueryArgs)
    (stS : SqlProviderState) (Ms : List Row) (b : SqlQueryArgs)
    (outE : EsQueryOutcome) (outS : SqlOutcome)
    (hE : (esQuery stE M a).2 = Except.ok outE) (hr : a.resulttype = "results")
    (hS : sqlQuery stS Ms b = Except.ok outS) :
    (outE.collection.numberReturned = some outE.collection.features.length ∧
     outE.collection.features.length ≤ a.limit ∧
     outE.collection.features.length ≤ outE.collection.numberMatched) ∧
    (outS.response.numberReturned = outS.response.features.length ∧
     outS.response.numberReturned ≤ b.limit ∧
     outS.response.numberReturned ≤ outS.response.numberMatched) := by
  have hrh : ("results" : String) ≠ "hits" := by decide
  constructor
  · simp only [esQuery] at hE
    unfold esQueryResult at hE
    rw [hr] at hE
    simp only [if_neg hrh] at hE
    split at hE
    · simp at hE
    · split at hE
      · injection hE with h
        subst h
        refine ⟨by simp, ?_, ?_⟩
        · simp only [List.length_map]
          rw [esScan_hits_length]
          omega
        · simp only [List.length_map]
          omega
      · injection hE with h
        subst h
        refine ⟨by simp, ?_, ?_⟩
        · simp only [List.length_map, esDirectSearch, List.length_take,
            List.length_drop]
          omega
        · simp only [List.length_map, esDirectSearch, List.length_take,
            List.length_drop]
          omega
  · unfold sqlQuery at hS
    split at hS
    · simp at hS
    · split at hS
      · injection hS with h
        subst h
        simp
      · injection hS with h
        subst h
        refine ⟨by simp, ?_, ?_⟩
        · simp only [List.length_map, List.length_take, List.length_drop]
          omega
        · simp only [List.length_map, List.length_take, List.length_drop]
          omega

/-- C1 witness: a concrete results-mode query on each strategy. -/
theorem c1_amended_witness :
    (esQuery ⟨"id", none, [], [], []⟩
        [⟨"d1", "Feature", none, none, []⟩]
        ⟨0, 10, "results", none, []⟩).2
      = Except.ok ⟨⟨[⟨"d1", "Feature", none, []⟩], 1, some 1⟩, 1, 10⟩ ∧
    sqlQuery ⟨"fid", "geom", none, [], ["name"], ["fid", "name", "geom"]⟩
        [[("fid", "1"), ("name", "x")]] ⟨0, 10, "results", none⟩
      = Except.ok ⟨⟨[⟨"1", "Feature", none, [("name", "x")]⟩], 1, 1⟩, 1⟩ ∧
    (((some 1 = some (1 : Nat)) ∧ (1 : Nat) ≤ 10 ∧ (1 : Nat) ≤ 1) ∧
     ((1 : Nat) = 1 ∧ (1 : Nat) ≤ 10 ∧ (1 : Nat) ≤ 1)) := by
  have h1 : (esQuery ⟨"id", none, [], [], []⟩
        [⟨"d1", "Feature", none, none, []⟩]
        ⟨0, 10, "results", none, []⟩).2
      = Except.ok ⟨⟨[⟨"d1", "Feature", none, []⟩], 1, some 1⟩, 1, 10⟩ := rfl
  have h2 : sqlQuery ⟨"fid", "geom", none, [], ["name"], ["fid", "name", "geom"]⟩
        [[("fid", "1"), ("name", "x")]] ⟨0, 10, "results", none⟩
      = Except.ok ⟨⟨[⟨"1", "Feature", none, [("name", "x")]⟩], 1, 1⟩, 1⟩ := rfl
  have h := c1_amended _ _ _ _ _ _ _ _ h1 rfl h2
  exact ⟨h1, h2, h⟩

/-- Evaluation of the deep-pagination hits path of `query`
(elasticsearch_.py lines 237-239, 377-392, 410-413): the forced limit 0
makes the scroll collect nothing, so `numberMatched` degenerates to
`offset`, while the cursor is still advanced `min offset |M|` times. -/
theorem esQueryResult_deep_hits (st : EsProviderState) (M : List EsDoc)
    (a : EsQueryArgs) (ha : a.resulttype = "hits")
    (hd : ¬(a.datetime_ ≠ none ∧ st.time_field = none))
    (hoff : 10000 < a.offset) :
    esQueryResult st M a =
      Except.ok ⟨⟨[], a.offset, none⟩, min a.offset M.length, 0⟩ := by
  unfold esQueryResult
  rw [ha]
  simp only [reduceIte]
  rw [if_neg hd, if_pos (show a.offset + 0 > 10000 by omega)]
  have hh : (esScan M a.offset 0).hits = (M.drop a.offset).take 0 :=
    esScan_hits_eq_window M a.offset 0
  have hf : (esScan M a.offset 0).fetched = min (a.offset + 0) M.length := by
    rw [esScan_spec]
  simp only [hh, hf, List.take_zero, List.length_nil, Nat.zero_add,
    Nat.add_zero]

/-- Evaluation of the deep-pagination results path of `query`
(elasticsearch_.py lines 377-392, 415-420): the scroll collects the
window `[offset, offset+limit)` of the sorted matched set, and
`numberMatched` is reported as the window size plus `offset`. -/
theorem esQueryResult_deep_results (st : EsProviderState) (M : List EsDoc)
    (a : EsQueryArgs) (ha : a.resulttype = "results")
    (hd : ¬(a.datetime_ ≠ none ∧ st.time_field = none))
    (hoff : 10000 < a.offset + a.limit) :
    esQueryResult st M a =
      Except.ok ⟨⟨((M.drop a.offset).take a.limit).map (esdoc2geojson st),
        ((M.drop a.offset).take a.limit).length + a.offset,
        some ((M.drop a.offset).take a.limit).length⟩,
        min (a.offset + a.limit) M.length, a.limit⟩ := by
  unfold esQueryResult
  rw [ha]
  simp only [String.reduceEq, reduceIte]
  rw [if_neg hd, if_pos (show a.offset + a.limit > 10000 from hoff)]
  have hh : (esScan M a.offset a.limit).hits = (M.drop a.offset).take a.limit :=
    esScan_hits_eq_window M a.offset a.limit
  have hf : (esScan M a.offset a.limit).fetched
      = min (a.offset + a.limit) M.length := by
    rw [esScan_spec]
  rw [hh, hf]

/-- C2 counterexample: a `resultType = 'hits'` query with
`offset = 10001` still enters the deep-pagination branch
(`offset + 0 > 10000`) and pulls one document from the scroll cursor of
a one-document store (`fetched = 1`), contradicting "no feature rows
fetched". -/
theorem c2_counterexample :
    (esQuery ⟨"id", none, [], [], []⟩
        [⟨"d1", "Feature", none, none, []⟩]
        ⟨10001, 5, "hits", none, []⟩).2
      = Except.ok ⟨⟨[], 10001, none⟩, 1, 0⟩ ∧ (1 : Nat) ≠ 0 := by
  refine ⟨?_, by decide⟩
  show esQueryResult ⟨"id", none, [], [], []⟩
      [⟨"d1", "Feature", none, none, []⟩] ⟨10001, 5, "hits", none, []⟩ = _
  rw [esQueryResult_deep_hits _ _ _ rfl (by simp) (by decide)]
  norm_num

/-- C2 (amended): for `resultType = 'hits'` both strategies return an
empty feature sequence and the document-store strategy forces the
effective limit to 0; no rows are fetched in the relational strategy
nor in the document-store direct path (`offset ≤ 10000`), but when
`offset > 10000` the document-store strategy still advances the scroll
cursor `min offset matched` times without serializing any feature. -/
theorem c2_amended (stE : EsProviderState) (M : List EsDoc) (a : EsQueryArgs)
    (stS : SqlProviderState) (Ms : List Row) (b : SqlQueryArgs)
    (outE : EsQueryOutcome) (outS : SqlOutcome)
    (ha : a.resulttype = "hits") (hb : b.resulttype = "hits")
    (hE : (esQuery stE M a).2 = Except.ok outE)
    (hS : sqlQuery stS Ms b = Except.ok outS) :
    outE.collection.features = [] ∧
    outE.effLimit = 0 ∧
    (a.offset ≤ 10000 → outE.fetched = 0) ∧
    (10000 < a.offset → outE.fetched = min a.offset M.length) ∧
    outS.response.features = [] ∧
    outS.response.numberReturned = 0 ∧
    outS.rowsFetched = 0 := by
  have hsql : outS.response.features = [] ∧
      outS.response.numberReturned = 0 ∧ outS.rowsFetched = 0 := by
    unfold sqlQuery at hS
    split at hS
    · simp at hS
    · rw [hb] at hS
      simp only [reduceIte] at hS
      injection hS with h
      subst h
      exact ⟨rfl, rfl, rfl⟩
  simp only [esQuery] at hE
  unfold esQueryResult at hE
  rw [ha] at hE
  simp only [reduceIte] at hE
  split at hE
  · simp at hE
  · split at hE
    case isTrue hdeep =>
      injection hE with h
      subst h
      refine ⟨rfl, rfl, ?_, ?_, hsql.1, hsql.2.1, hsql.2.2⟩
      · intro hle
        omega
      · intro _
        have := esScan_spec M a.offset 0
        rw [this]
        simp
    case isFalse hdir =>
      injection hE with h
      subst h
      refine ⟨rfl, rfl, ?_, ?_, hsql.1, hsql.2.1, hsql.2.2⟩
      · intro _
        simp [esDirectSearch]
      · intro hgt
        omega

/-- C2 witness: a concrete hits-mode query on each strategy. -/
theorem c2_amended_witness :
    (esQuery ⟨"id", none, [], [], []⟩
        [⟨"d1", "Feature", none, none, []⟩]
        ⟨0, 10, "hits", none, []⟩).2
      = Except.ok ⟨⟨[], 1, none⟩, 0, 0⟩ ∧
    sqlQuery ⟨"fid", "geom", none, [], ["name"], ["fid", "name", "geom"]⟩
        [[("fid", "1"), ("name", "x")]] ⟨0, 10, "hits", none⟩
      = Except.ok ⟨⟨[], 1, 0⟩, 0⟩ ∧
    (([] : List GeoFeature) = [] ∧ (0 : Nat) = 0 ∧
     ((0 : Nat) ≤ 10000 → (0 : Nat) = 0) ∧
     ((10000 : Nat) < 0 → (0 : Nat) = min 0 1) ∧
     ([] : List GeoFeature) = [] ∧ (0 : Nat) = 0 ∧ (0 : Nat) = 0) := by
  have h1 : (esQuery ⟨"id", none, [], [], []⟩
        [⟨"d1", "Feature", none, none, []⟩]
        ⟨0, 10, "hits", none, []⟩).2
      = Except.ok ⟨⟨[], 1, none⟩, 0, 0⟩ := rfl
  have h2 : sqlQuery ⟨"fid", "geom", none, [], ["name"], ["fid", "name", "geom"]⟩
        [[("fid", "1"), ("name", "x")]] ⟨0, 10, "hits", none⟩
      = Except.ok ⟨⟨[], 1, 0⟩, 0⟩ := rfl
  exact ⟨h1, h2, c2_amended _ _ _ _ _ _ _ _ rfl rfl h1 h2⟩

/-- C3: when `offset + limit` exceeds the fixed 10,000 threshold, the
document-store query walks the sorted matched set with a forward-only
cursor from the beginning, discards the first `offset` records,
collects the next `limit` records, and reports `numberMatched` as
`offset + numberReturned` rather than the true total count
(elasticsearch_.py lines 376-392). -/
theorem c3_deep_pagination (st : EsProviderState) (M : List EsDoc)
    (a : EsQueryArgs) (outE : EsQueryOutcome)
    (ha : a.resulttype = "results") (hoff : 10000 < a.offset + a.limit)
    (hE : (esQuery st M a).2 = Except.ok outE) :
    outE.collection.features
      = ((M.drop a.offset).take a.limit).map
          (esdoc2geojson { st with select_properties := a.select_properties }) ∧
    outE.collection.numberMatched
      = a.offset + outE.collection.features.length ∧
    outE.collection.numberReturned = some outE.collection.features.length := by
  simp only [esQuery] at hE
  by_cases hd : a.datetime_ ≠ none ∧
      ({ st with select_properties := a.select_properties }
        : EsProviderState).time_field = none
  · exfalso
    unfold esQueryResult at hE
    rw [if_pos hd] at hE
    simp at hE
  · rw [esQueryResult_deep_results _ _ _ ha hd hoff] at hE
    injection hE with h
    subst h
    refine ⟨rfl, ?_, ?_⟩
    · simp only [List.length_map]
      omega
    · simp [List.length_map]

/-- C3 witness: a deep-pagination query against a one-document store. -/
theorem c3_deep_pagination_witness :
    (10000 : Nat) < 10001 + 2 ∧
    (esQuery ⟨"id", none, [], [], []⟩ [⟨"d1", "Feature", none, none, []⟩]
        ⟨10001, 2, "results", none, []⟩).2
      = Except.ok ⟨⟨[], 10001, some 0⟩, 1, 2⟩ ∧
    (([] : List GeoFeature) = [] ∧ (10001 : Nat) = 10001 + 0 ∧
     (some 0 : Option Nat) = some 0) := by
  have hlt : (10000 : Nat) < 10001 + 2 := by norm_num
  have hdrop : ([⟨"d1", "Feature", none, none, []⟩] : List EsDoc).drop 10001
      = [] := List.drop_of_length_le (by simp)
  have heq : (esQuery ⟨"id", none, [], [], []⟩
        [⟨"d1", "Feature", none, none, []⟩]
        ⟨10001, 2, "results", none, []⟩).2
      = Except.ok ⟨⟨[], 10001, some 0⟩, 1, 2⟩ := by
    show esQueryResult ⟨"id", none, [], [], []⟩
        [⟨"d1", "Feature", none, none, []⟩] ⟨10001, 2, "results", none, []⟩ = _
    rw [esQueryResult_deep_results _ _ _ rfl (by simp) (by decide)]
    simp only [hdrop, List.take_nil, List.map_nil, List.length_nil,
      Nat.zero_add]
    norm_num
  exact ⟨hlt, heq, c3_deep_pagination _ _ _ _ rfl hlt heq⟩

/-- C4: for a deep-pagination query (`offset + limit > 10000`) the
returned feature sequence equals, record for record, what direct
offset/limit mode (`esDirectSearch`, lines 394-398) would return for
the same window under the same compiled sort. -/
theorem c4_deep_refines_direct (st : EsProviderState) (M : List EsDoc)
    (a : EsQueryArgs) (outE : EsQueryOutcome)
    (ha : a.resulttype = "results") (hoff : 10000 < a.offset + a.limit)
    (hE : (esQuery st M a).2 = Except.ok outE) :
    outE.collection.features
      = (esDirectSearch M a.offset a.limit).hits.map
          (esdoc2geojson { st with select_properties := a.select_properties }) := by
  simp only [esQuery] at hE
  by_cases hd : a.datetime_ ≠ none ∧
      ({ st with select_properties := a.select_properties }
        : EsProviderState).time_field = none
  · exfalso
    unfold esQueryResult at hE
    rw [if_pos hd] at hE
    simp at hE
  · rw [esQueryResult_deep_results _ _ _ ha hd hoff] at hE
    injection hE with h
    subst h
    simp [esDirectSearch]

/-- C4 witness: the deep path and the independently computed direct
window coincide on a concrete store. -/
theorem c4_deep_refines_direct_witness :
    (10000 : Nat) < 10001 + 2 ∧
    (esQuery ⟨"id", none, [], [], []⟩ [⟨"d1", "Feature", none, none, []⟩]
        ⟨10001, 2, "results", none, []⟩).2
      = Except.ok ⟨⟨[], 10001, some 0⟩, 1, 2⟩ ∧
    ([] : List GeoFeature)
      = (esDirectSearch [⟨"d1", "Feature", none, none, []⟩] 10001 2).hits.map
          (esdoc2geojson ⟨"id", none, [], [], []⟩) := by
  have hlt : (10000 : Nat) < 10001 + 2 := by norm_num
  have hdrop : ([⟨"d1", "Feature", none, none, []⟩] : List EsDoc).drop 10001
      = [] := List.drop_of_length_le (by simp)
  have heq : (esQuery ⟨"id", none, [], [], []⟩
        [⟨"d1", "Feature", none, none, []⟩]
        ⟨10001, 2, "results", none, []⟩).2
      = Except.ok ⟨⟨[], 10001, some 0⟩, 1, 2⟩ := by
    show esQueryResult ⟨"id", none, [], [], []⟩
        [⟨"d1", "Feature", none, none, []⟩] ⟨10001, 2, "results", none, []⟩ = _
    rw [esQueryResult_deep_results _ _ _ rfl (by simp) (by decide)]
    simp only [hdrop, List.take_nil, List.map_nil, List.length_nil,
      Nat.zero_add]
    norm_num
  exact ⟨hlt, heq, c4_deep_refines_direct _ _ _ _ rfl hlt heq⟩

/-- C5 counterexample: in the relational strategy a direction value
other than `'-'` and `'+'` (here the empty string) compiles to a
DESCENDING clause (sql.py line 500 keys on `'+'`, not on `'-'`),
refuting "any other direction value produces an ascending sort" for
that strategy. -/
theorem c5_counterexample :
    sqlOrderByClauses ⟨"fid", "geom", none, [], [], []⟩ [⟨"name", ""⟩]
      = [("name", SqlDir.desc)] ∧ SqlDir.desc ≠ SqlDir.asc := by
  exact ⟨rfl, by decide⟩

/-- C5 (amended): the document-store strategy sorts descending exactly
for direction `'-'` and ascending for anything else; the relational
strategy sorts ascending exactly for direction `'+'` and descending for
anything else (including values that are neither `'+'` nor `'-'`). -/
theorem c5_amended (s : SortSpec) :
    (esSortOrder s = "desc" ↔ s.order = "-") ∧
    (sqlOrderDir s = SqlDir.asc ↔ s.order = "+") := by
  constructor
  · unfold esSortOrder
    by_cases h : s.order = "-" <;> simp [h]
  · unfold sqlOrderDir
    by_cases h : s.order = "+" <;> simp [h]

/-- C6: a datetime expression that is an instant, a closed range, or a
range open on exactly one side fails with a QueryError in both
strategies when no temporal field is configured (elasticsearch_.py
lines 258-262, sql.py lines 544-550; the fully open `'../..'`, which
the spec rules out as malformed, is excluded). -/
theorem c6_datetime_requires_time_field
    (stE : EsProviderState) (stS : SqlProviderState)
    (M : List EsDoc) (Ms : List Row) (a : EsQueryArgs) (b : SqlQueryArgs)
    (dt : DT)
    (hE : stE.time_field = none) (hS : stS.time_field = none)
    (ha : a.datetime_ = some dt) (hb : b.datetime_ = some dt)
    (hwf : dt ≠ DT.interval ".." "..") :
    (esQuery stE M a).2 = Except.error ProviderError.queryError ∧
    sqlQuery stS Ms b = Except.error ProviderError.queryError := by
  constructor
  · simp only [esQuery]
    unfold esQueryResult
    rw [if_pos]
    constructor
    · rw [ha]
      simp
    · simpa using hE
  · have hdt : sqlDatetimeFilter stS b.datetime_
        = Except.error ProviderError.queryError := by
      rw [hb]
      simp only [sqlDatetimeFilter, if_neg hwf, hS]
    unfold sqlQuery
    rw [hdt]

/-- C6 witness: an instant datetime on providers with no temporal
field configured. -/
theorem c6_datetime_requires_time_field_witness :
    (⟨"id", none, [], [], []⟩ : EsProviderState).time_field = none ∧
    (⟨"fid", "geom", none, [], [], []⟩ : SqlProviderState).time_field = none ∧
    DT.instant "2020-01-01" ≠ DT.interval ".." ".." ∧
    (esQuery ⟨"id", none, [], [], []⟩ []
        ⟨0, 10, "results", some (DT.instant "2020-01-01"), []⟩).2
      = Except.error ProviderError.queryError ∧
    sqlQuery ⟨"fid", "geom", none, [], [], []⟩ []
        ⟨0, 10, "results", some (DT.instant "2020-01-01")⟩
      = Except.error ProviderError.queryError := by
  have h := c6_datetime_requires_time_field
    ⟨"id", none, [], [], []⟩ ⟨"fid", "geom", none, [], [], []⟩ [] []
    ⟨0, 10, "results", some (DT.instant "2020-01-01"), []⟩
    ⟨0, 10, "results", some (DT.instant "2020-01-01")⟩
    (DT.instant "2020-01-01") rfl rfl rfl rfl (by decide)
  exact ⟨rfl, rfl, by decide, h.1, h.2⟩

/-- C7 counterexample: the property filter compiled for
`("name", "Paris")` is a `match` query against the analyzed masked
field `properties.name`, not an exact-match predicate against the
un-analyzed `properties.name.raw` sub-field the claim requires (the
`.raw` masking exists only in the sortby and domain paths,
elasticsearch_.py lines 181-184 and 316-319, never at lines 292-306). -/
theorem c7_counterexample :
    esPropertyFilters [("name", "Paris")]
      = [⟨"properties.name", "Paris", true⟩] ∧
    "properties.name" ≠ mask_prop "name" ++ ".raw" := by
  exact ⟨by decide, by decide⟩

/-- C7 (amended): each document-store property filter is a `match`
predicate on the masked field name itself (with
`minimum_should_match: 100%` added only to the last filter, when its
value has no `|`), not on a `.raw` sub-field; the relational strategy
compiles direct column equalities; in both strategies the filters are
combined with AND (`bool.filter` conjunction, `and_`). -/
theorem c7_amended (props : List (String × String)) (h : props ≠ []) :
    (esPropertyFilters props).map (fun pf => (pf.field, pf.queryVal))
      = props.map (fun p => (mask_prop p.1, p.2)) ∧
    sqlPropertyFilters props
      = SqlFilter.andF (props.map (fun p => SqlFilter.eq p.1 p.2)) := by
  constructor
  · rcases List.eq_nil_or_concat props with hnil | ⟨init, lastProp, hcat⟩
    · exact absurd hnil h
    · rw [List.concat_eq_append] at hcat
      subst hcat
      rw [esPropertyFilters_concat]
      simp [List.map_append]
  · unfold sqlPropertyFilters
    rw [if_neg h]

/-- C7 witness: one concrete filter pair on each strategy. -/
theorem c7_amended_witness :
    ([("name", "Paris")] : List (String × String)) ≠ [] ∧
    (esPropertyFilters [("name", "Paris")]).map
        (fun pf => (pf.field, pf.queryVal))
      = [("properties.name", "Paris")] ∧
    sqlPropertyFilters [("name", "Paris")]
      = SqlFilter.andF [SqlFilter.eq "name" "Paris"] := by
  have h := c7_amended [("name", "Paris")] (by decide)
  exact ⟨by decide, h.1, h.2⟩

/-- C8 counterexample: with both a configured allow-list (`['a']`) and a
per-request selection (`['b']`) present, the document-store strategy
restricts the fetched property fields to the selection alone (Python
`and` at elasticsearch_.py line 592 returns `select_properties`), while
the relational strategy restricts to the intersection
(sql.py line 577), here empty — so the two strategies do not restrict
to one common "that field set" as the claim asserts. -/
theorem c8_counterexample :
    get_properties ⟨"id", none, ["a"], ["b"], []⟩ = ["b"] ∧
    sqlColumnNames ⟨"fid", "geom", none, ["a"], ["a", "b"],
        ["a", "b", "geom"]⟩ ["b"] true = ∅ := by
  exact ⟨by decide, by decide⟩

/-- C8 (amended): when exactly one of the configured allow-list and the
per-request selection is present, the document-store query's `_source`
is restricted to exactly that field set (masked) plus `id`, `type`,
`geometry` — with `geometry` moved to the excludes when `skipGeometry`
is set — and the relational query selects exactly that field set plus
the geometry column (omitted when `skipGeometry`); when neither is
present, no source restriction is made (all fields fetched).  With both
present the strategies diverge (see the counterexample). -/
theorem c8_amended (stE : EsProviderState) (stS : SqlProviderState)
    (skip : Bool) (selS : List String)
    (hgeom : stS.geom ∈ stS.tableColumns) :
    (stE.properties = [] → stE.select_properties ≠ [] →
      esSourceSpec stE skip none
        = some ⟨some (stE.select_properties.map mask_prop
              ++ ["id", "type", "geometry"]),
            if skip then some ["geometry"] else none⟩) ∧
    (stE.properties ≠ [] → stE.select_properties = [] →
      esSourceSpec stE skip none
        = some ⟨some (stE.properties.map mask_prop
              ++ ["id", "type", "geometry"]),
            if skip then some ["geometry"] else none⟩) ∧
    (stE.properties = [] → stE.select_properties = [] →
      esSourceSpec stE skip none
        = if skip then some ⟨none, some ["geometry"]⟩ else none) ∧
    (stS.properties = [] → selS ≠ [] → (∀ c ∈ selS, c ∈ stS.tableColumns) →
      sqlColumnNames stS selS skip
        = if skip then selS.toFinset else insert stS.geom selS.toFinset) ∧
    (stS.properties ≠ [] → selS = [] →
      (∀ c ∈ stS.properties, c ∈ stS.fieldsKeys) →
      (∀ c ∈ stS.fieldsKeys, c ∈ stS.tableColumns) →
      sqlColumnNames stS selS skip
        = if skip then stS.properties.toFinset
          else insert stS.geom stS.properties.toFinset) ∧
    (stS.properties = [] → selS = [] →
      (∀ c ∈ stS.fieldsKeys, c ∈ stS.tableColumns) →
      sqlColumnNames stS selS skip
        = if skip then stS.fieldsKeys.toFinset
          else insert stS.geom stS.fieldsKeys.toFinset) := by
  refine ⟨?_, ?_, ?_, ?_, ?_, ?_⟩
  · intro hp hs
    unfold esSourceSpec get_properties pyAnd pyOr
    cases skip <;> simp [hp, hs]
  · intro hp hs
    unfold esSourceSpec get_properties pyAnd pyOr
    cases skip <;> simp [hp, hs]
  · intro hp hs
    unfold esSourceSpec get_properties pyAnd pyOr
    cases skip <;> simp [hp, hs]
  · intro hp hsel hsub
    cases skip
    · simp only [sqlColumnNames, hp, if_pos hsel, ne_eq, not_true_eq_false,
        Bool.false_eq_true, if_false]
      apply Finset.filter_true_of_mem
      intro x hx
      rcases Finset.mem_insert.mp hx with hx1 | hx2
      · rw [hx1]
        exact hgeom
      · exact hsub x (List.mem_toFinset.mp hx2)
    · simp only [sqlColumnNames, hp, if_pos hsel, ne_eq, not_true_eq_false,
        if_false, if_true]
      apply Finset.filter_true_of_mem
      intro x hx
      exact hsub x (List.mem_toFinset.mp hx)
  · intro hp hsel hsubP hsubF
    subst hsel
    have hinter : stS.fieldsKeys.toFinset ∩ stS.properties.toFinset
        = stS.properties.toFinset := by
      apply Finset.inter_eq_right.mpr
      intro x hx
      exact List.mem_toFinset.mpr (hsubP x (List.mem_toFinset.mp hx))
    cases skip
    · simp only [sqlColumnNames, if_pos hp, ne_eq, not_true_eq_false,
        if_false, Bool.false_eq_true, hinter]
      apply Finset.filter_true_of_mem
      intro x hx
      rcases Finset.mem_insert.mp hx with hx1 | hx2
      · rw [hx1]
        exact hgeom
      · exact hsubF x (hsubP x (List.mem_toFinset.mp hx2))
    · simp only [sqlColumnNames, if_pos hp, ne_eq, not_true_eq_false,
        if_false, if_true, hinter]
      apply Finset.filter_true_of_mem
      intro x hx
      exact hsubF x (hsubP x (List.mem_toFinset.mp hx))
  · intro hp hsel hsubF
    subst hsel
    cases skip
    · simp only [sqlColumnNames, hp, ne_eq, not_true_eq_false, if_false,
        Bool.false_eq_true]
      apply Finset.filter_true_of_mem
      intro x hx
      rcases Finset.mem_insert.mp hx with hx1 | hx2
      · rw [hx1]
        exact hgeom
      · exact hsubF x (List.mem_toFinset.mp hx2)
    · simp only [sqlColumnNames, hp, ne_eq, not_true_eq_false, if_false,
        if_true]
      apply Finset.filter_true_of_mem
      intro x hx
      exact hsubF x (List.mem_toFinset.mp hx)

/-- C8 witness: a present selection and absent allow-list on each
strategy. -/
theorem c8_amended_witness :
    "geom" ∈ ["name", "fid", "geom"] ∧
    esSourceSpec ⟨"id", none, [], ["name"], []⟩ false none
      = some ⟨some ["properties.name", "id", "type", "geometry"], none⟩ ∧
    sqlColumnNames ⟨"fid", "geom", none, [], ["name", "fid"],
        ["name", "fid", "geom"]⟩ ["name"] false
      = insert "geom" (["name"] : List String).toFinset := by
  have h := c8_amended ⟨"id", none, [], ["name"], []⟩
    ⟨"fid", "geom", none, [], ["name", "fid"], ["name", "fid", "geom"]⟩
    false ["name"] (by decide)
  refine ⟨by decide, ?_, ?_⟩
  · have h1 := h.1 rfl (by decide)
    simpa [mask_prop] using h1
  · have h4 := h.2.2.2.1 rfl (by decide) (by decide)
    simpa using h4

/-- C9 counterexample: a query call with a per-request selection leaves
the provider instance observably changed (line 227 persists
`select_properties` on `self`), so the state after the call differs
from the state before it. -/
theorem c9_counterexample :
    (esQuery ⟨"id", none, [], [], []⟩ []
        ⟨0, 10, "results", none, ["name"]⟩).1
      ≠ ⟨"id", none, [], [], []⟩ := by decide

/-- C9 (amended): not all mutable per-call state is local to the call:
`query` persists the request's `selectProperties` on the provider
instance, and the state after the call equals the state before it with
`select_properties` replaced by the request's selection (which a later
call reading `self.select_properties`, such as `get`'s serialization
through `esdoc2geojson`, then observes). -/
theorem c9_amended (st : EsProviderState) (M : List EsDoc)
    (a : EsQueryArgs) :
    (esQuery st M a).1
      = { st with select_properties := a.select_properties } := rfl

/-- C10: `update` returns `True` for every identifier and every valid
prepared item in both strategies, and the write is an insert-or-replace
at the identifier — in particular the result does not depend on whether
the identifier previously existed in the store. -/
theorem c10_update_upsert_true {α : Type} (esStore sqlTable : String → Option α)
    (identifier : String) (item : α) :
    (esUpdate esStore identifier item).2 = true ∧
    (sqlUpdate sqlTable identifier item).2 = true ∧
    (esUpdate esStore identifier item).1 identifier = some item ∧
    (sqlUpdate sqlTable identifier item).1 identifier = some item := by
  refine ⟨rfl, rfl, ?_, ?_⟩ <;> simp [esUpdate, sqlUpdate, storeUpsert]
